import Mathlib

/-!
Verification of the physics core of a single-pendulum simulator.

The embedding below translates the simulator's state model, RK4 integrator,
per-frame update, trail buffer eviction, reset action and derived-quantity
formulas into Lean definitions over the real numbers, and proves properties
of them. Source artefacts modelled:

* `PendulumState`, `SimulationControls` — the TypeScript interfaces.
* `rk4` — the Runge-Kutta integrator in `Simulator.tsx`.
* `handleFrame` — the per-tick state update in `Simulator.tsx`
  (the `setState` updater, made explicit as a pure function of the
  previous state; the early return on `!controls.isRunning` becomes the
  identity branch).
* `evictTrail` — the `while (newTrail.length > 50) newTrail.shift()` loop.
* `resetSimulation` — the reset click handler (state is replaced by the
  initial literal; controls only get `isRunning := true`).
* `calculateEnergy`, `calculateMaxEnergy` — from the canvas component.
* `periodInfoDisplay`, `maxSpeedInfoDisplay` — the formulas rendered in the
  "Physics Information" panel of `Simulator.tsx`.

Definitions whose names start with `spec` are written from the prose
specification's formulas, for comparison against the code-derived ones.
-/

noncomputable section

open Real

/-- A 2D screen-space point, as stored in the trail (`{ x, y }` objects). -/
structure Point where
  x : ℝ
  y : ℝ

/-- The `PendulumState` interface from `simulation.ts`. -/
structure PendulumState where
  angle : ℝ
  angularVelocity : ℝ
  length : ℝ
  mass : ℝ
  trail : List Point

/-- The `SimulationControls` interface from `simulation.ts`. -/
structure SimulationControls where
  isRunning : Bool
  gravity : ℝ
  damping : ℝ
  showTrail : Bool

/-- The `rk4` function of `Simulator.tsx`: classical 4th-order Runge-Kutta
step on `(angle, angularVelocity)` with derivative
`f(θ, ω) = (ω, (-gravity / length)·sin θ - damping·ω)`. -/
def rk4 (state : PendulumState) (dt gravity damping : ℝ) : ℝ × ℝ :=
  let f : ℝ → ℝ → ℝ × ℝ := fun theta omega =>
    (omega, -gravity / state.length * Real.sin theta - damping * omega)
  let theta := state.angle
  let omega := state.angularVelocity
  let k1 := f theta omega
  let k2 := f (theta + k1.1 * dt / 2) (omega + k1.2 * dt / 2)
  let k3 := f (theta + k2.1 * dt / 2) (omega + k2.2 * dt / 2)
  let k4 := f (theta + k3.1 * dt) (omega + k3.2 * dt)
  (theta + dt / 6 * (k1.1 + 2 * k2.1 + 2 * k3.1 + k4.1),
   omega + dt / 6 * (k1.2 + 2 * k2.2 + 2 * k3.2 + k4.2))

/-- The `while (newTrail.length > 50) newTrail.shift()` loop of
`handleFrame`: repeatedly remove the head while more than 50 entries
remain. -/
def evictTrail (l : List Point) : List Point :=
  if _h : 50 < l.length then evictTrail l.tail else l
termination_by l.length
decreasing_by
  simp only [List.length_tail]
  omega

/-- The bob's rendering-space position computed in `handleFrame`:
pivot `(300, 125)`, string length `length * 150`. -/
def bobPosition (angle length : ℝ) : Point :=
  { x := 300 + Real.sin angle * (length * 150),
    y := 125 + Real.cos angle * (length * 150) }

/-- The per-tick update of `Simulator.tsx` (`handleFrame` and the
`setState` updater inside it): early return when not running; otherwise
integrate, recompute the bob position, optionally append it to a copy of
the trail with FIFO eviction, and produce the new state. -/
def handleFrame (controls : SimulationControls) (deltaTime : ℝ)
    (prev : PendulumState) : PendulumState :=
  if !controls.isRunning then prev
  else
    let dt := deltaTime
    let new := rk4 prev dt controls.gravity (controls.damping / 100)
    let pivotX : ℝ := 300
    let pivotY : ℝ := 125
    let stringLength := prev.length * 150
    let bobX := pivotX + Real.sin new.1 * stringLength
    let bobY := pivotY + Real.cos new.1 * stringLength
    let newTrail :=
      if controls.showTrail then evictTrail (prev.trail ++ [{ x := bobX, y := bobY }])
      else prev.trail
    { prev with angle := new.1, angularVelocity := new.2, trail := newTrail }

/-- The initial `PendulumState` literal of `Simulator.tsx`. -/
def initialState : PendulumState :=
  { angle := Real.pi / 4
    angularVelocity := 0
    length := 2
    mass := 1
    trail := [] }

/-- The initial `SimulationControls` literal of `Simulator.tsx`. -/
def initialControls : SimulationControls :=
  { isRunning := true
    gravity := 9.81
    damping := 0.5
    showTrail := true }

/-- The `resetSimulation` handler of `Simulator.tsx`: the state is replaced
by the initial literal, and the controls keep their current values except
that `isRunning` is set to `true`. -/
def resetSimulation (_state : PendulumState) (controls : SimulationControls) :
    PendulumState × SimulationControls :=
  ({ angle := Real.pi / 4
     angularVelocity := 0
     length := 2
     mass := 1
     trail := [] },
   { controls with isRunning := true })

/-- `calculateEnergy` from the canvas component: kinetic plus potential
energy. -/
def calculateEnergy (state : PendulumState) (gravity : ℝ) : ℝ :=
  let kineticEnergy := 0.5 * state.mass * (state.angularVelocity * state.length) ^ 2
  let potentialEnergy := state.mass * gravity * state.length * (1 - Real.cos state.angle)
  kineticEnergy + potentialEnergy

/-- `calculateMaxEnergy` from the canvas component. -/
def calculateMaxEnergy (state : PendulumState) (gravity : ℝ) : ℝ :=
  2 * state.mass * gravity * state.length

/-- The period formula rendered in the info panel of `Simulator.tsx`:
`2 * Math.PI * Math.sqrt(state.length / controls.gravity)`. -/
def periodInfoDisplay (state : PendulumState) (gravity : ℝ) : ℝ :=
  2 * Real.pi * Real.sqrt (state.length / gravity)

/-- The max-speed formula rendered in the info panel of `Simulator.tsx`:
`Math.sqrt(2 * controls.gravity * state.length) * (1 - Math.cos(state.angle))`. -/
def maxSpeedInfoDisplay (state : PendulumState) (gravity : ℝ) : ℝ :=
  Real.sqrt (2 * gravity * state.length) * (1 - Real.cos state.angle)

/-- Written from the specification's words: the RK4 derivative function
`dθ/dt = ω`, `dω/dt = -(gravity/length)·sin(θ) - dampingCoefficient·ω`. -/
def specDeriv (length gravity dampingCoefficient theta omega : ℝ) : ℝ × ℝ :=
  (omega, -(gravity / length) * Real.sin theta - dampingCoefficient * omega)

/-- Written from the specification's words: four stage evaluations k1..k4 at
`(θ, ω)`, `(θ + k1·dt/2, ω + k1v·dt/2)`, `(θ + k2·dt/2, ω + k2v·dt/2)`,
`(θ + k3·dt, ω + k3v·dt)`, combined with the weighted average
`(k1 + 2k2 + 2k3 + k4)/6` scaled by `dt`. -/
def specRK4 (theta omega length dt gravity dampingCoefficient : ℝ) : ℝ × ℝ :=
  let k1 := specDeriv length gravity dampingCoefficient theta omega
  let k2 := specDeriv length gravity dampingCoefficient
    (theta + k1.1 * dt / 2) (omega + k1.2 * dt / 2)
  let k3 := specDeriv length gravity dampingCoefficient
    (theta + k2.1 * dt / 2) (omega + k2.2 * dt / 2)
  let k4 := specDeriv length gravity dampingCoefficient
    (theta + k3.1 * dt) (omega + k3.2 * dt)
  (theta + dt * ((k1.1 + 2 * k2.1 + 2 * k3.1 + k4.1) / 6),
   omega + dt * ((k1.2 + 2 * k2.2 + 2 * k3.2 + k4.2) / 6))

/-- Written from the specification's formulas:
`kineticEnergy = 0.5 · mass · (angularVelocity · length)²`. -/
def specKineticEnergy (state : PendulumState) : ℝ :=
  0.5 * state.mass * (state.angularVelocity * state.length) ^ 2

/-- Written from the specification's formulas:
`potentialEnergy = mass · gravity · length · (1 − cos(angle))`. -/
def specPotentialEnergy (state : PendulumState) (gravity : ℝ) : ℝ :=
  state.mass * gravity * state.length * (1 - Real.cos state.angle)

/-- Written from the specification's formulas:
`maxEnergy = 2 · mass · gravity · length`. -/
def specMaxEnergy (state : PendulumState) (gravity : ℝ) : ℝ :=
  2 * state.mass * gravity * state.length

/-- Written from the specification's formulas:
`periodEstimate = 2π·sqrt(length/gravity)`. -/
def specPeriodEstimate (state : PendulumState) (gravity : ℝ) : ℝ :=
  2 * Real.pi * Real.sqrt (state.length / gravity)

/-- Written from the specification's formulas:
`maxSpeedEstimate = sqrt(2·gravity·length) · (1 − cos(angle))`. -/
def specMaxSpeedEstimate (state : PendulumState) (gravity : ℝ) : ℝ :=
  Real.sqrt (2 * gravity * state.length) * (1 - Real.cos state.angle)

/-- Iterated per-tick updates: apply `handleFrame` once per entry of the
list of frame time deltas, in order. -/
def stepTicks (c : SimulationControls) : PendulumState → List ℝ → PendulumState
  | s, [] => s
  | s, dt :: rest => stepTicks c (handleFrame c dt s) rest

/-- The chronological list of bob positions that `handleFrame` appends to
the trail over a run of ticks (one per running tick with the trail shown,
none otherwise). -/
def tickPoints (c : SimulationControls) : PendulumState → List ℝ → List Point
  | _, [] => []
  | s, dt :: rest =>
    (if c.isRunning && c.showTrail then
      [bobPosition (rk4 s dt c.gravity (c.damping / 100)).1 s.length]
     else []) ++ tickPoints c (handleFrame c dt s) rest

/-- The last at-most-`n` elements of a list, in order. -/
def lastN (n : ℕ) (l : List Point) : List Point :=
  l.drop (l.length - n)

/-- The controls used by the specification's worked example: running, no
damping, standard gravity. -/
def exampleControls : SimulationControls :=
  { isRunning := true
    gravity := 9.81
    damping := 0
    showTrail := true }

theorem evictTrail_eq_drop (l : List Point) :
    evictTrail l = l.drop (l.length - 50) := by
  induction l using evictTrail.induct with
  | case1 l h ih =>
    rw [evictTrail]
    simp only [h, dif_pos]
    rw [ih]
    rcases l with _ | ⟨a, t⟩
    · simp at h
    · simp only [List.tail_cons, List.length_cons]
      have ht : t.length + 1 - 50 = (t.length - 50) + 1 := by
        simp at h; omega
      rw [ht, List.drop_succ_cons]
  | case2 l h =>
    rw [evictTrail]
    simp only [h, dif_neg]
    have h0 : l.length - 50 = 0 := by omega
    simp [h0]

theorem lastN_length_le (n : ℕ) (l : List Point) : (lastN n l).length ≤ n := by
  simp only [lastN, List.length_drop]
  omega

theorem lastN_of_length_le {n : ℕ} {l : List Point} (h : l.length ≤ n) :
    lastN n l = l := by
  simp [lastN, Nat.sub_eq_zero_of_le h]

theorem lastN_append_lastN (n : ℕ) (a b : List Point) :
    lastN n (lastN n a ++ b) = lastN n (a ++ b) := by
  simp only [lastN]
  rw [← List.drop_append_of_le_length (Nat.sub_le a.length n), List.drop_drop]
  simp only [List.length_drop, List.length_append]
  congr 1
  omega

/-- C1: the integrator returns exactly one classical RK4 step for the
pendulum ODE `dθ/dt = ω`, `dω/dt = -(gravity/length)·sin(θ) - c·ω`, with
the four standard stage evaluations and the `(k1 + 2k2 + 2k3 + k4)/6`
weighted average scaled by `dt`, for every input with positive length. -/
theorem rk4_matches_spec_rk4 (s : PendulumState)
    (dt gravity dampingCoefficient : ℝ) (_h : 0 < s.length) :
    rk4 s dt gravity dampingCoefficient =
      specRK4 s.angle s.angularVelocity s.length dt gravity dampingCoefficient := by
  simp only [rk4, specRK4, specDeriv, neg_div, Prod.mk.injEq]
  constructor <;> ring

/-- Witness for `rk4_matches_spec_rk4` at the initial state. -/
theorem rk4_matches_spec_rk4_witness :
    (0 : ℝ) < initialState.length ∧
    rk4 initialState 0.01 9.81 0.005 =
      specRK4 initialState.angle initialState.angularVelocity initialState.length
        0.01 9.81 0.005 :=
  ⟨by norm_num [initialState],
   rk4_matches_spec_rk4 initialState 0.01 9.81 0.005 (by norm_num [initialState])⟩

/-- C2: on a running tick, the per-tick update calls the integrator with
the current state, the frame delta, the gravity control, and `damping/100`
as the dimensionless coefficient; it stores the integrator's two results as
the new angle and angular velocity, recomputes the bob's rendering-space
position from the new angle and the length, appends it (with FIFO
eviction) exactly when `showTrail` is true, and leaves the trail untouched
when `showTrail` is false. -/
theorem handleFrame_running_step (c : SimulationControls) (dt : ℝ)
    (s : PendulumState) (h : c.isRunning = true) :
    (handleFrame c dt s).angle = (rk4 s dt c.gravity (c.damping / 100)).1 ∧
    (handleFrame c dt s).angularVelocity = (rk4 s dt c.gravity (c.damping / 100)).2 ∧
    (c.showTrail = true →
      (handleFrame c dt s).trail =
        evictTrail (s.trail ++
          [bobPosition (rk4 s dt c.gravity (c.damping / 100)).1 s.length])) ∧
    (c.showTrail = false → (handleFrame c dt s).trail = s.trail) := by
  refine ⟨?_, ?_, ?_, ?_⟩
  · simp [handleFrame, h]
  · simp [handleFrame, h]
  · intro hs; simp [handleFrame, h, hs, bobPosition]
  · intro hs; simp [handleFrame, h, hs]

/-- Witness for `handleFrame_running_step` at the initial state and
controls with `deltaTime = 0.01`. -/
theorem handleFrame_running_step_witness :
    initialControls.isRunning = true ∧
    ((handleFrame initialControls 0.01 initialState).angle =
        (rk4 initialState 0.01 initialControls.gravity
          (initialControls.damping / 100)).1 ∧
      (handleFrame initialControls 0.01 initialState).angularVelocity =
        (rk4 initialState 0.01 initialControls.gravity
          (initialControls.damping / 100)).2 ∧
      (initialControls.showTrail = true →
        (handleFrame initialControls 0.01 initialState).trail =
          evictTrail (initialState.trail ++
            [bobPosition
              (rk4 initialState 0.01 initialControls.gravity
                (initialControls.damping / 100)).1 initialState.length])) ∧
      (initialControls.showTrail = false →
        (handleFrame initialControls 0.01 initialState).trail =
          initialState.trail)) :=
  ⟨rfl, handleFrame_running_step initialControls 0.01 initialState rfl⟩

/-- C3 counterexample: called with the invalid length `-1` (≤ 0), the
integrator does not signal any error — it silently returns a computed
numeric pair (here `(0, 0)`). -/
theorem rk4_invalid_length_returns_value :
    rk4 { angle := 0, angularVelocity := 0, length := -1, mass := 1, trail := [] }
      0.01 9.81 0.5 = (0, 0) := by
  norm_num [rk4]

/-- C3 amended: the integrator performs no input validation; even for a
non-positive length it returns the numerically computed RK4 combination
(the same formula as for valid inputs) rather than signalling an error. -/
theorem rk4_no_validation_on_nonpositive_length (s : PendulumState)
    (dt gravity damping : ℝ) (_h : s.length ≤ 0) :
    rk4 s dt gravity damping =
      specRK4 s.angle s.angularVelocity s.length dt gravity damping := by
  simp only [rk4, specRK4, specDeriv, neg_div, Prod.mk.injEq]
  constructor <;> ring

/-- Witness for `rk4_no_validation_on_nonpositive_length` at length `-1`. -/
theorem rk4_no_validation_witness :
    ({ angle := 0, angularVelocity := 0, length := -1, mass := 1,
        trail := [] } : PendulumState).length ≤ 0 ∧
    rk4 { angle := 0, angularVelocity := 0, length := -1, mass := 1, trail := [] }
        0.01 9.81 0.5 =
      specRK4 0 0 (-1) 0.01 9.81 0.5 :=
  ⟨by norm_num,
   rk4_no_validation_on_nonpositive_length _ 0.01 9.81 0.5 (by norm_num)⟩

/-- C5 counterexample: resetting from controls whose gravity is 5 yields
controls with gravity still 5, not the initial controls (gravity 9.81) —
the reset does not restore `SimulationControls` to its initial values. -/
theorem reset_does_not_restore_controls :
    (resetSimulation initialState
        { isRunning := false, gravity := 5, damping := 0, showTrail := false }).2 ≠
      initialControls := by
  intro h
  have hg := congrArg SimulationControls.gravity h
  simp only [resetSimulation, initialControls] at hg
  norm_num at hg

/-- C5 amended: the reset action restores `PendulumState` to exactly its
fixed initial values (angle = π/4, angularVelocity = 0, length = 2,
mass = 1, empty trail) and re-enables running, but keeps the current
gravity, damping and showTrail control values instead of restoring them. -/
theorem reset_restores_state_and_running (s : PendulumState)
    (c : SimulationControls) :
    (resetSimulation s c).1 = initialState ∧
    (resetSimulation s c).2 = { c with isRunning := true } :=
  ⟨rfl, rfl⟩

/-- C6: over any run of ticks with the trail shown, starting from a trail
of at most 50 entries, the trail stays at most 50 entries long and equals
the last at-most-50 points of the original trail followed by the appended
bob positions, in chronological order — strict FIFO eviction from the
head. -/
theorem trail_bound_fifo (c : SimulationControls) (s : PendulumState)
    (dts : List ℝ) (hst : c.showTrail = true) (hlen : s.trail.length ≤ 50) :
    (stepTicks c s dts).trail.length ≤ 50 ∧
    (stepTicks c s dts).trail = lastN 50 (s.trail ++ tickPoints c s dts) := by
  induction dts generalizing s with
  | nil =>
    simp only [stepTicks, tickPoints, List.append_nil]
    exact ⟨hlen, (lastN_of_length_le hlen).symm⟩
  | cons dt rest ih =>
    by_cases hr : c.isRunning = true
    · have htrail : (handleFrame c dt s).trail =
          lastN 50 (s.trail ++
            [bobPosition (rk4 s dt c.gravity (c.damping / 100)).1 s.length]) := by
        simp only [handleFrame, hr, Bool.not_true, Bool.false_eq_true,
          if_false, hst, if_true, bobPosition]
        rw [evictTrail_eq_drop]
        rfl
      have hlen' : (handleFrame c dt s).trail.length ≤ 50 := by
        rw [htrail]; exact lastN_length_le 50 _
      obtain ⟨ihl, ihe⟩ := ih (handleFrame c dt s) hlen'
      refine ⟨?_, ?_⟩
      · simpa only [stepTicks] using ihl
      · simp only [stepTicks, tickPoints, hr, hst, Bool.and_self, if_true,
          List.singleton_append]
        rw [ihe, htrail, lastN_append_lastN]
        simp [List.append_assoc]
    · have hr' : c.isRunning = false := by
        simpa using hr
      have hid : handleFrame c dt s = s := by
        simp [handleFrame, hr']
      obtain ⟨ihl, ihe⟩ := ih s hlen
      refine ⟨?_, ?_⟩
      · simpa only [stepTicks, hid] using ihl
      · simp only [stepTicks, tickPoints, hid, hr', Bool.false_and,
          if_false, List.nil_append]
        exact ihe

/-- Witness for `trail_bound_fifo`: one tick from the initial state. -/
theorem trail_bound_fifo_witness :
    initialControls.showTrail = true ∧
    initialState.trail.length ≤ 50 ∧
    ((stepTicks initialControls initialState [0.01]).trail.length ≤ 50 ∧
      (stepTicks initialControls initialState [0.01]).trail =
        lastN 50 (initialState.trail ++
          tickPoints initialControls initialState [0.01])) :=
  ⟨rfl, by simp [initialState],
   trail_bound_fifo initialControls initialState [0.01] rfl
     (by simp [initialState])⟩

/-- C7: a tick with `isRunning = false` performs no physics update — the
angle, angular velocity and trail of the result are identical to the
input's, for every `deltaTime`. -/
theorem pause_noop (c : SimulationControls) (dt : ℝ) (s : PendulumState)
    (h : c.isRunning = false) :
    (handleFrame c dt s).angle = s.angle ∧
    (handleFrame c dt s).angularVelocity = s.angularVelocity ∧
    (handleFrame c dt s).trail = s.trail := by
  simp [handleFrame, h]

/-- Witness for `pause_noop` with paused controls, `deltaTime = 1`. -/
theorem pause_noop_witness :
    (⟨false, 9.81, 0.5, true⟩ : SimulationControls).isRunning = false ∧
    ((handleFrame ⟨false, 9.81, 0.5, true⟩ 1 initialState).angle =
        initialState.angle ∧
      (handleFrame ⟨false, 9.81, 0.5, true⟩ 1 initialState).angularVelocity =
        initialState.angularVelocity ∧
      (handleFrame ⟨false, 9.81, 0.5, true⟩ 1 initialState).trail =
        initialState.trail) :=
  ⟨rfl, pause_noop ⟨false, 9.81, 0.5, true⟩ 1 initialState rfl⟩

/-- C8: every derived quantity computed by the code equals its
specification formula: the energy is the spec's kinetic energy plus the
spec's potential energy, the max energy, the period estimate and the
max-speed estimate match the spec's formulas verbatim. -/
theorem derived_quantities_match_spec (s : PendulumState) (gravity : ℝ) :
    calculateEnergy s gravity = specKineticEnergy s + specPotentialEnergy s gravity ∧
    calculateMaxEnergy s gravity = specMaxEnergy s gravity ∧
    periodInfoDisplay s gravity = specPeriodEstimate s gravity ∧
    maxSpeedInfoDisplay s gravity = specMaxSpeedEstimate s gravity :=
  ⟨rfl, rfl, rfl, rfl⟩

/-- C9: from the initial state with no damping and `deltaTime = 0.01`, one
running tick makes the angular velocity strictly negative and the angle
strictly less than π/4 — the restoring torque pulls the bob back toward
vertical. -/
theorem first_step_restoring_torque :
    (handleFrame exampleControls 0.01 initialState).angularVelocity < 0 ∧
    (handleFrame exampleControls 0.01 initialState).angle < Real.pi / 4 := by
  have hs2 : (0 : ℝ) ≤ Real.sqrt 2 := Real.sqrt_nonneg 2
  have h2u : Real.sqrt 2 < 3 / 2 := by
    rw [Real.sqrt_lt' (by norm_num)]
    norm_num
  have h2l : 1 < Real.sqrt 2 := by
    rw [show (1 : ℝ) = Real.sqrt 1 from Real.sqrt_one.symm]
    exact Real.sqrt_lt_sqrt (by norm_num) (by norm_num)
  have hπl := Real.pi_gt_d2
  have hπu := Real.pi_lt_d2
  have hsin1 : 0 < Real.sin (Real.pi / 4 +
      -(981 / 200 * (Real.sqrt 2 / 2) * (1 / 100)) / 2 * (1 / 100) / 2) := by
    apply Real.sin_pos_of_pos_of_lt_pi <;> linarith
  have hsin2 : 0 < Real.sin (Real.pi / 4 +
      -(981 / 200 * (Real.sqrt 2 / 2) * (1 / 100)) / 2 * (1 / 100)) := by
    apply Real.sin_pos_of_pos_of_lt_pi <;> linarith
  constructor
  · simp only [handleFrame, exampleControls, rk4, initialState]
    norm_num
    linarith
  · simp only [handleFrame, exampleControls, rk4, initialState]
    norm_num
    linarith

/-- C10: a running tick preserves the state's length and mass fields. -/
theorem step_preserves_length_mass (c : SimulationControls) (dt : ℝ)
    (s : PendulumState) (h : c.isRunning = true) :
    (handleFrame c dt s).length = s.length ∧
    (handleFrame c dt s).mass = s.mass := by
  simp [handleFrame, h]

/-- Witness for `step_preserves_length_mass` at the initial state and
controls. -/
theorem step_preserves_length_mass_witness :
    initialControls.isRunning = true ∧
    ((handleFrame initialControls 0.01 initialState).length =
        initialState.length ∧
      (handleFrame initialControls 0.01 initialState).mass =
        initialState.mass) :=
  ⟨rfl, step_preserves_length_mass initialControls 0.01 initialState rfl⟩

end
